import Mathlib

/-!
Verification development for the PDF text-extraction scripts of the
repository (extract_pdf_text.py, backend-unboxed/services/pdf_extractor.py,
backend-unboxed/services/pymupdf_extractor.py).

Strings are modelled as lists of Unicode code points (`List Nat`), matching
Python's view of `str` as a sequence of code points.  The external PDF
library (PyMuPDF / `fitz`) and the Python `unicodedata` module are
collaborators outside this repository; they are modelled as oracles
(`PdfLib`, `UnicodeData`) over which the theorems quantify, with the Unicode
facts the proofs need stated as explicit hypotheses.
-/

/-- Code points of a Lean string literal, used to transcribe the Python
string literals of the source. -/
def strCodes (s : String) : List Nat := s.data.map Char.toNat

/-- Python `str.isspace` code points (the set stripped by `str.strip()`). -/
def pySpace (c : Nat) : Bool :=
  (9 ≤ c && c ≤ 13) || (28 ≤ c && c ≤ 32) || c == 0x85 || c == 0xa0 ||
  c == 0x1680 || (0x2000 ≤ c && c ≤ 0x200a) || c == 0x2028 || c == 0x2029 ||
  c == 0x202f || c == 0x205f || c == 0x3000

/-- Python `text.strip()`: drop leading and trailing whitespace. -/
def pyStrip (l : List Nat) : List Nat :=
  ((l.dropWhile pySpace).reverse.dropWhile pySpace).reverse

/-- The fixed replacement table of `clean_unicode_text`
(extract_pdf_text.py lines 15-25), as (code point, replacement code point)
pairs in source order.  Every key and every value of the Python dict is a
single character. -/
def replacements : List (Nat × Nat) :=
  [(0xf084, 0x20), (0x02da, 0xb0), (0xf0b0, 0xb0), (0x2019, 0x27),
   (0x201c, 0x22), (0x201d, 0x22), (0x2013, 0x2d), (0x2014, 0x2d),
   (0x00a0, 0x20)]

/-- `text.replace(old, new)` for a single-character pattern and
single-character replacement: a per-character substitution. -/
def replaceChar (old new c : Nat) : Nat := if c = old then new else c

/-- The replacement loop of `clean_unicode_text` (lines 28-29): one
`text.replace` pass per table entry, applied in table order. -/
def applyReplacements (text : List Nat) : List Nat :=
  replacements.foldl (fun t p => t.map (replaceChar p.1 p.2)) text

/-- Oracle for the Python `unicodedata` module.  `catLNPSZ c` tells whether
`unicodedata.category(chr c)[0]` is one of L, N, P, S, Z; `nfkd c` is the
code-point sequence of `unicodedata.normalize('NFKD', chr c)`. -/
structure UnicodeData where
  catLNPSZ : Nat → Bool
  nfkd : Nat → List Nat

/-- The ASCII fallback of `clean_unicode_text` (lines 43-46):
`unicodedata.normalize('NFKD', char).encode('ascii', 'ignore')`, replaced by
a single space when the stripped result is empty. -/
def asciiStrip (u : UnicodeData) (c : Nat) : List Nat :=
  let a := (u.nfkd c).filter (fun d => d < 128)
  if a.isEmpty then [0x20] else a

/-- The per-character branch of `clean_unicode_text` (lines 33-51): ASCII
passthrough, extended-ASCII passthrough, category L/N/P/S/Z fallback via
NFKD (emit the single decomposed character when it is below 256, else the
ASCII-stripped decomposition), and space for everything else.  `headD 0`
plays the role of Python's `ord(normalized)` on a length-1 string. -/
def cleanChar (u : UnicodeData) (c : Nat) : List Nat :=
  if c < 128 then [c]
  else if 160 ≤ c ∧ c < 256 then [c]
  else if u.catLNPSZ c then
    if (u.nfkd c).length = 1 ∧ (u.nfkd c).headD 0 < 256 then [(u.nfkd c).headD 0]
    else asciiStrip u c
  else [0x20]

/-- `clean_unicode_text` (extract_pdf_text.py lines 12-54): the replacement
table pass followed by the per-character loop, joined back into one
sequence. -/
def clean_unicode_text (u : UnicodeData) (text : List Nat) : List Nat :=
  ((applyReplacements text).map (cleanChar u)).flatten

/-- The replacement chain applied to one character: the composition, in
table order, of the single-character `replace` passes. -/
def chainRepl (c : Nat) : Nat :=
  replacements.foldl (fun x p => replaceChar p.1 p.2 x) c

/-- Output characters of the cleaning pass that are fixed points of a
re-run: plain ASCII, or extended ASCII other than the non-breaking space
U+00A0 (which is a replacement-table key). -/
def stableCp (x : Nat) : Bool := x < 128 || (160 < x && x < 256)

/-- The spec's invariant range [0,127] ∪ [160,255]. -/
def inRangeCp (x : Nat) : Bool := x < 128 || (160 ≤ x && x < 256)

/-- Unicode fact about NFKD used by the range and idempotence proofs: no
single-character NFKD decomposition below 256 is a C1 control (128-159) or
the non-breaking space 160.  This holds of the real `unicodedata` tables:
decomposition mappings never target control characters, and U+00A0 itself
decomposes to a plain space. -/
def NfkdSane (u : UnicodeData) : Prop :=
  ∀ c d, u.nfkd c = [d] → d < 256 → d < 128 ∨ 160 < d

/-- A concrete `unicodedata` oracle used to instantiate theorems: every
character is classified L/N/P/S/Z and decomposes to a single space. -/
def u0 : UnicodeData := { catLNPSZ := fun _ => true, nfkd := fun _ => [0x20] }

/-- The document-level metadata mapping of the PDF collaborator, after the
`.get(key, "")` defaulting done by pymupdf_extractor.py lines 33-39. -/
structure FitzMeta where
  title : List Nat
  author : List Nat
  subject : List Nat
  creator : List Nat
  producer : List Nat
  creationDate : List Nat
  modDate : List Nat

/-- Oracle for the external PDF collaborator (`fitz`), describing its
behaviour at one fixed path: whether `fitz.open` succeeds or raises,
the page count of the opened document, the outcome (text or exception) of
`load_page(i)` followed by `get_text()`, the metadata mapping, and the
on-disk file size. -/
structure PdfLib where
  openResult : Except (List Nat) Unit
  pageCount : Nat
  pageText : Nat → Except (List Nat) (List Nat)
  meta : FitzMeta
  fileSize : Nat

/-- Observable calls made to the PDF collaborator during one run. -/
inductive Ev where
  | openCalled
  | pageRead (i : Nat)
  | closed

deriving instance DecidableEq for Ev

/-- Whether an `Except` value is an exception. -/
def isErr {ε α : Type} (x : Except ε α) : Bool :=
  match x with
  | .error _ => true
  | .ok _ => false

/-- The page loop shared by all three scripts: read pages `s, s+1, ...`
(`k` pages in all), collecting each page's raw text, stopping at the first
collaborator exception; paired with the collaborator calls made. -/
def readPages (lib : PdfLib) : Nat → Nat → Except (List Nat) (List (List Nat)) × List Ev
  | _, 0 => (Except.ok [], [])
  | s, k + 1 =>
    match lib.pageText s with
    | .error e => (Except.error e, [Ev.pageRead s])
    | .ok t =>
      match readPages lib (s + 1) k with
      | (.error e, evs) => (Except.error e, Ev.pageRead s :: evs)
      | (.ok ts, evs) => (Except.ok (t :: ts), Ev.pageRead s :: evs)

namespace ExtractPdfText

/-- The page-boundary marker of extract_pdf_text.py line 76:
the f-string built from the 1-based page number, followed by the cleaned
page text. -/
def pageMarker (n : Nat) (body : List Nat) : List Nat :=
  strCodes "--- Page " ++ strCodes (Nat.repr n) ++ strCodes " ---" ++ [10] ++ body

/-- The `text_parts` accumulation of extract_pdf_text.py lines 64-76 for
pages numbered `n, n+1, ...`: a page whose raw text strips to empty is
skipped, otherwise a marker plus the cleaned text is appended. -/
def textPartsAux (u : UnicodeData) : Nat → List (List Nat) → List (List Nat)
  | _, [] => []
  | n, t :: ts =>
    if (pyStrip t).isEmpty then textPartsAux u (n + 1) ts
    else pageMarker n (clean_unicode_text u t) :: textPartsAux u (n + 1) ts

/-- `extract_pdf_text` of extract_pdf_text.py lines 56-84: open the
document, read and assemble the pages joined by blank lines, close, and
return the text; any collaborator exception is caught and the empty string
returned.  The second component records the collaborator calls made. -/
def extract_pdf_text (u : UnicodeData) (lib : PdfLib) : List Nat × List Ev :=
  match lib.openResult with
  | .error _ => ([], [Ev.openCalled])
  | .ok _ =>
    match readPages lib 0 lib.pageCount with
    | (.error _, evs) => ([], Ev.openCalled :: evs)
    | (.ok ts, evs) =>
      (List.intercalate [10, 10] (textPartsAux u 1 ts),
       Ev.openCalled :: evs ++ [Ev.closed])

/-- The `__main__` block of extract_pdf_text.py lines 86-100: exit 1 with a
usage message unless exactly one argument follows the program name,
otherwise run extraction and exit 0 when the result is non-empty, 1 when it
is empty.  The boolean records whether extraction was attempted. -/
def mainEntry (u : UnicodeData) (argv : List (List Nat)) (lib : PdfLib) :
    Nat × Bool :=
  if argv.length ≠ 2 then (1, false)
  else if (extract_pdf_text u lib).1.isEmpty then (1, true) else (0, true)

end ExtractPdfText

namespace PdfExtractor

/-- The `metadata` object of the success result of
backend-unboxed/services/pdf_extractor.py lines 44-51. -/
structure PxMeta where
  pageCount : Nat
  fileSize : Nat
  extractionMethod : List Nat
  extractionTime : List Nat
  pages : List (List Nat)

deriving instance DecidableEq for PxMeta

/-- The result dictionary of pdf_extractor.py.  `none` in an `Option` field
models a key absent from that variant of the dictionary (`metadata` is the
empty dict in the failure variants; the failure variants carry no
`totalCharacters`; the success variant carries no `error`). -/
structure PxResult where
  success : Bool
  error : Option (List Nat)
  text : List Nat
  totalCharacters : Option Nat
  metadata : Option PxMeta

deriving instance DecidableEq for PxResult

/-- The file-not-found result of pdf_extractor.py lines 15-21. -/
def fnfResult (path : List Nat) : PxResult :=
  { success := false, error := some (strCodes "File not found: " ++ path),
    text := [], totalCharacters := none, metadata := none }

/-- The exception-handler result of pdf_extractor.py lines 56-62. -/
def errResult (e : List Nat) : PxResult :=
  { success := false, error := some (strCodes "PDF extraction failed: " ++ e),
    text := [], totalCharacters := none, metadata := none }

/-- `extract_pdf_text` of pdf_extractor.py lines 11-62: existence check,
open, page loop accumulating `page_text + "\n"`, success result built from
the stripped accumulated text, close; any collaborator exception yields the
failure result.  The second component records the collaborator calls. -/
def extract_pdf_text (path : List Nat) (path_exists : Bool) (lib : PdfLib) :
    PxResult × List Ev :=
  if path_exists = false then (fnfResult path, [])
  else
    match lib.openResult with
    | .error e => (errResult e, [Ev.openCalled])
    | .ok _ =>
      match readPages lib 0 lib.pageCount with
      | (.error e, evs) => (errResult e, Ev.openCalled :: evs)
      | (.ok ts, evs) =>
        let fullText := (ts.map (fun t => t ++ [10])).flatten
        ({ success := true, error := none, text := pyStrip fullText,
           totalCharacters := some (pyStrip fullText).length,
           metadata := some { pageCount := lib.pageCount,
                              fileSize := lib.fileSize,
                              extractionMethod := strCodes "PyMuPDF-Python",
                              extractionTime := [], pages := ts } },
         Ev.openCalled :: evs ++ [Ev.closed])

/-- The `__main__` block of pdf_extractor.py lines 64-76: print a usage
failure JSON and exit 1 unless exactly one argument follows the program
name; otherwise run extraction, print its JSON and exit 0.  The boolean
records whether extraction was attempted. -/
def mainEntry (argv : List (List Nat)) (path_exists : Bool) (lib : PdfLib) :
    Nat × Bool :=
  if argv.length ≠ 2 then (1, false)
  else
    let _r := extract_pdf_text (argv.getD 1 []) path_exists lib
    (0, true)

end PdfExtractor

namespace PymupdfExtractor

/-- One record of the `pages` sequence of
backend-unboxed/services/pymupdf_extractor.py lines 55-59. -/
structure PageRec where
  pageNumber : Nat
  text : List Nat
  charCount : Nat

deriving instance DecidableEq for PageRec

/-- The `metadata` object of pymupdf_extractor.py lines 33-43, built from
the collaborator's metadata mapping, the page count, and the wall-clock
time `now`. -/
structure PyMeta where
  title : List Nat
  author : List Nat
  subject : List Nat
  creator : List Nat
  producer : List Nat
  creationDate : List Nat
  modDate : List Nat
  pageCount : Nat
  extractionMethod : List Nat
  extractionTime : List Nat

deriving instance DecidableEq for PyMeta

/-- The result dictionary of pymupdf_extractor.py.  `none` in an `Option`
field models a key absent from that variant (the file-not-found dict has no
`pages` and no `totalCharacters`; `metadata` is the empty dict in failure
variants). -/
structure PyResult where
  success : Bool
  error : Option (List Nat)
  text : List Nat
  metadata : Option PyMeta
  pages : Option (List PageRec)
  totalCharacters : Option Nat

deriving instance DecidableEq for PyResult

/-- The file-not-found result of pymupdf_extractor.py lines 21-27. -/
def fnfResult (path : List Nat) : PyResult :=
  { success := false, error := some (strCodes "File not found: " ++ path),
    text := [], metadata := none, pages := none, totalCharacters := none }

/-- The exception-handler result of pymupdf_extractor.py lines 88-94. -/
def errResult (e : List Nat) : PyResult :=
  { success := false, error := some e, text := [], metadata := none,
    pages := some [], totalCharacters := none }

/-- The metadata construction of pymupdf_extractor.py lines 33-43. -/
def buildMeta (lib : PdfLib) (now : List Nat) : PyMeta :=
  { title := lib.meta.title, author := lib.meta.author,
    subject := lib.meta.subject, creator := lib.meta.creator,
    producer := lib.meta.producer, creationDate := lib.meta.creationDate,
    modDate := lib.meta.modDate, pageCount := lib.pageCount,
    extractionMethod := strCodes "PyMuPDF", extractionTime := now }

/-- The per-page banner of pymupdf_extractor.py line 63:
`"\n=== PAGE n ===\n"` for 1-based page number `n`. -/
def pageHeader (n : Nat) : List Nat :=
  10 :: (strCodes "=== PAGE " ++ strCodes (Nat.repr n) ++ strCodes " ===" ++ [10])

/-- The `full_text` accumulation of pymupdf_extractor.py lines 62-65:
banner, page text, trailing newline, per page in order. -/
def assembleFull (ts : List (List Nat)) : List Nat :=
  (ts.enum.map (fun p => pageHeader (p.1 + 1) ++ p.2 ++ [10])).flatten

/-- The `page_texts` records of pymupdf_extractor.py lines 55-59. -/
def pageRecords (ts : List (List Nat)) : List PageRec :=
  ts.enum.map (fun p => { pageNumber := p.1 + 1, text := p.2, charCount := p.2.length })

/-- `extract_text_from_pdf` of pymupdf_extractor.py lines 14-94: existence
check, open, metadata, page loop, close, then strip the accumulated text
and drop every non-ASCII code point (`encode('ascii', 'ignore')`); any
collaborator exception yields the failure result.  The second component
records the collaborator calls. -/
def extract_text_from_pdf (path : List Nat) (path_exists : Bool)
    (lib : PdfLib) (now : List Nat) : PyResult × List Ev :=
  if path_exists = false then (fnfResult path, [])
  else
    match lib.openResult with
    | .error e => (errResult e, [Ev.openCalled])
    | .ok _ =>
      let md := buildMeta lib now
      match readPages lib 0 lib.pageCount with
      | (.error e, evs) => (errResult e, Ev.openCalled :: evs)
      | (.ok ts, evs) =>
        let cleanText := (pyStrip (assembleFull ts)).filter (fun c => c < 128)
        ({ success := true, error := none, text := cleanText,
           metadata := some md, pages := some (pageRecords ts),
           totalCharacters := some cleanText.length },
         Ev.openCalled :: evs ++ [Ev.closed])

/-- `main` of pymupdf_extractor.py lines 96-112: print a usage failure JSON
and exit 1 when fewer than two entries are in `argv`; otherwise run the
extraction on `argv[1]` (extra arguments are ignored), print its JSON and
exit 0.  The boolean records whether extraction was attempted. -/
def mainEntry (argv : List (List Nat)) (path_exists : Bool) (lib : PdfLib)
    (now : List Nat) : Nat × Bool :=
  if argv.length < 2 then (1, false)
  else
    let _r := extract_text_from_pdf (argv.getD 1 []) path_exists lib now
    (0, true)

end PymupdfExtractor

/-- An empty metadata mapping for concrete collaborator instances. -/
def metaEmpty : FitzMeta :=
  { title := [], author := [], subject := [], creator := [], producer := [],
    creationDate := [], modDate := [] }

/-- Collaborator at a path that cannot be opened (e.g. no such file):
`fitz.open` raises. -/
def libNoFile : PdfLib :=
  { openResult := Except.error (strCodes "no such file"), pageCount := 0,
    pageText := fun _ => Except.error [], meta := metaEmpty, fileSize := 0 }

/-- Collaborator whose document opens but whose only page cannot be read:
the read raises mid-extraction. -/
def libFail : PdfLib :=
  { openResult := Except.ok (), pageCount := 1,
    pageText := fun _ => Except.error (strCodes "cannot read page"),
    meta := metaEmpty, fileSize := 0 }

/-- Well-formed single-page document whose sole page text is "Hello". -/
def libHello : PdfLib :=
  { openResult := Except.ok (), pageCount := 1,
    pageText := fun _ => Except.ok (strCodes "Hello"),
    meta := metaEmpty, fileSize := 100 }

/-- Well-formed document with no pages. -/
def libEmptyDoc : PdfLib :=
  { openResult := Except.ok (), pageCount := 0,
    pageText := fun _ => Except.error [], meta := metaEmpty, fileSize := 0 }

/-! ### Lemmas on the replacement pass -/

/-- A fold of per-character `replace` passes is the per-character map of the
folded substitution chain. -/
theorem foldl_map_left (ps : List (Nat × Nat)) (t : List Nat) :
    ps.foldl (fun l p => l.map (replaceChar p.1 p.2)) t
      = t.map (fun c => ps.foldl (fun x p => replaceChar p.1 p.2 x) c) := by
  induction ps generalizing t with
  | nil => simp
  | cons p ps ih =>
    simp only [List.foldl_cons]
    rw [ih, List.map_map]
    rfl

/-- The replacement pass acts independently on each character. -/
theorem applyReplacements_eq (t : List Nat) :
    applyReplacements t = t.map chainRepl :=
  foldl_map_left replacements t

/-- A single-character `replace` never outputs its own pattern when the
replacement differs from it. -/
theorem replaceChar_ne_key (old new x : Nat) (h : new ≠ old) :
    replaceChar old new x ≠ old := by
  unfold replaceChar
  split
  · exact h
  · assumption

/-- The chained substitutions never output the non-breaking space U+00A0:
its own table entry, applied last, maps it to a plain space. -/
theorem chainRepl_ne_160 (c : Nat) : chainRepl c ≠ 160 := by
  have e : chainRepl c =
      replaceChar 0xa0 0x20 (replaceChar 0x2014 0x2d (replaceChar 0x2013 0x2d
        (replaceChar 0x201d 0x22 (replaceChar 0x201c 0x22 (replaceChar 0x2019 0x27
          (replaceChar 0xf0b0 0xb0 (replaceChar 0x02da 0xb0
            (replaceChar 0xf084 0x20 c)))))))) := by
    simp only [chainRepl, replacements, List.foldl_cons, List.foldl_nil]
  rw [e]
  exact replaceChar_ne_key _ _ _ (by omega)

/-- A character that is not a key of the table is untouched by the
replacement pass. -/
theorem chainRepl_eq_of_not_key (c : Nat) (h : c ∉ replacements.map Prod.fst) :
    chainRepl c = c := by
  simp only [replacements, List.map_cons, List.map_nil, List.mem_cons,
    List.not_mem_nil, or_false] at h
  push_neg at h
  obtain ⟨h1, h2, h3, h4, h5, h6, h7, h8, h9⟩ := h
  simp [chainRepl, replacements, replaceChar, h1, h2, h3, h4, h5, h6, h7, h8, h9]

/-- Characters below 256 other than U+00A0 are not table keys. -/
theorem not_key_of_stable (c : Nat) (hx : stableCp c = true) :
    c ∉ replacements.map Prod.fst := by
  simp only [stableCp, Bool.or_eq_true, decide_eq_true_eq, Bool.and_eq_true] at hx
  simp only [replacements, List.map_cons, List.map_nil, List.mem_cons,
    List.not_mem_nil, or_false]
  push_neg
  omega

/-! ### Lemmas on the per-character loop -/

/-- A character in the invariant range passes through the loop unchanged. -/
theorem cleanChar_of_inRange (u : UnicodeData) (c : Nat)
    (h : inRangeCp c = true) : cleanChar u c = [c] := by
  simp only [inRangeCp, Bool.or_eq_true, decide_eq_true_eq, Bool.and_eq_true] at h
  unfold cleanChar
  rcases h with h | h
  · rw [if_pos h]
  · rw [if_neg (by omega), if_pos (by omega)]

/-- A list of length one is the singleton of its head. -/
theorem eq_singleton_of_length_one (l : List Nat) (h : l.length = 1) :
    l = [l.headD 0] := by
  cases l with
  | nil => simp at h
  | cons a t =>
    cases t with
    | nil => rfl
    | cons b t => simp at h

/-- Under the NFKD fact, every character the loop emits for an input other
than U+00A0 is a stable code point. -/
theorem cleanChar_stable (u : UnicodeData) (h : NfkdSane u) (c x : Nat)
    (hc : c ≠ 160) (hx : x ∈ cleanChar u c) : stableCp x = true := by
  unfold cleanChar at hx
  split_ifs at hx with h1 h2 h3 h4
  · simp at hx
    subst hx
    simp only [stableCp, Bool.or_eq_true, decide_eq_true_eq, Bool.and_eq_true]
    omega
  · simp at hx
    subst hx
    simp only [stableCp, Bool.or_eq_true, decide_eq_true_eq, Bool.and_eq_true]
    omega
  · rw [List.mem_singleton] at hx
    subst hx
    have hl := eq_singleton_of_length_one (u.nfkd c) h4.1
    have := h c ((u.nfkd c).headD 0) hl h4.2
    simp only [stableCp, Bool.or_eq_true, decide_eq_true_eq, Bool.and_eq_true]
    omega
  · simp only [asciiStrip] at hx
    split at hx
    · simp at hx
      subst hx
      simp [stableCp]
    · have := (List.mem_filter.mp hx).2
      simp only [decide_eq_true_eq] at this
      simp only [stableCp, Bool.or_eq_true, decide_eq_true_eq]
      exact Or.inl this
  · simp at hx
    subst hx
    simp [stableCp]

/-- Every character of the cleaned text is a stable code point. -/
theorem clean_mem_stable (u : UnicodeData) (h : NfkdSane u) (text : List Nat)
    (x : Nat) (hx : x ∈ clean_unicode_text u text) : stableCp x = true := by
  simp only [clean_unicode_text, applyReplacements_eq, List.map_map,
    List.mem_flatten, List.mem_map, Function.comp] at hx
  obtain ⟨l, ⟨a, _, rfl⟩, hxl⟩ := hx
  exact cleanChar_stable u h (chainRepl a) x (chainRepl_ne_160 a) hxl

/-- The cleaning pass is the identity on a text of stable code points. -/
theorem clean_of_stable (u : UnicodeData) (l : List Nat)
    (h : ∀ x ∈ l, stableCp x = true) : clean_unicode_text u l = l := by
  induction l with
  | nil => simp [clean_unicode_text, applyReplacements_eq]
  | cons a t ih =>
    have hform : clean_unicode_text u (a :: t)
        = cleanChar u (chainRepl a) ++ clean_unicode_text u t := by
      simp [clean_unicode_text, applyReplacements_eq]
    have ha := h a (List.mem_cons_self a t)
    have har : inRangeCp a = true := by
      simp only [stableCp, Bool.or_eq_true, decide_eq_true_eq,
        Bool.and_eq_true] at ha
      simp only [inRangeCp, Bool.or_eq_true, decide_eq_true_eq,
        Bool.and_eq_true]
      omega
    rw [hform, chainRepl_eq_of_not_key a (not_key_of_stable a ha),
      cleanChar_of_inRange u a har, ih (fun x hx => h x (List.mem_cons_of_mem a hx))]
    rfl

/-! ### Claims C1, C4, C5 -/

/-- C1: for every input string, `clean_unicode_text` terminates (it is a
total Lean function) and every code point of its output lies in
[0,127] ∪ [160,255]; each input character is deterministically mapped (the
function is pure) either to an equivalent within that range or to a single
space.  Quantified over any `unicodedata` oracle satisfying the NFKD table
fact `NfkdSane`. -/
theorem clean_unicode_text_range (u : UnicodeData) (h : NfkdSane u)
    (text : List Nat) : (clean_unicode_text u text).all inRangeCp = true := by
  rw [List.all_eq_true]
  intro x hx
  have hs := clean_mem_stable u h text x hx
  simp only [stableCp, Bool.or_eq_true, decide_eq_true_eq, Bool.and_eq_true] at hs
  simp only [inRangeCp, Bool.or_eq_true, decide_eq_true_eq, Bool.and_eq_true]
  omega

/-- Witness for C1: the range invariant evaluated at a concrete oracle and
a concrete input mixing ASCII, Latin-1, typographic punctuation and a CJK
character. -/
theorem clean_unicode_text_range_witness :
    (clean_unicode_text u0 (strCodes "Café ’s 一")).all inRangeCp = true :=
  clean_unicode_text_range u0
    (by
      intro c d hcd hd
      simp only [u0, List.cons.injEq, and_true] at hcd
      omega)
    (strCodes "Café ’s 一")

/-- C4: the normalizer is idempotent: cleaning already-cleaned text leaves
it unchanged, for any `unicodedata` oracle satisfying `NfkdSane`. -/
theorem clean_unicode_text_idempotent (u : UnicodeData) (h : NfkdSane u)
    (text : List Nat) :
    clean_unicode_text u (clean_unicode_text u text)
      = clean_unicode_text u text :=
  clean_of_stable u (clean_unicode_text u text)
    (fun x hx => clean_mem_stable u h text x hx)

/-- Witness for C4: idempotence evaluated at a concrete oracle and a
concrete input. -/
theorem clean_unicode_text_idempotent_witness :
    clean_unicode_text u0 (clean_unicode_text u0 (strCodes "Café – x y"))
      = clean_unicode_text u0 (strCodes "Café – x y") :=
  clean_unicode_text_idempotent u0
    (by
      intro c d hcd hd
      simp only [u0, List.cons.injEq, and_true] at hcd
      omega)
    (strCodes "Café – x y")

/-- C5: a character whose code point lies in [0,127] ∪ [160,255] and is not
a key of the replacement table is emitted unchanged by the normalizer,
regardless of the surrounding context. -/
theorem clean_unicode_text_id_char (u : UnicodeData) (c : Nat)
    (xs ys : List Nat) (h1 : inRangeCp c = true)
    (h2 : c ∉ replacements.map Prod.fst) :
    clean_unicode_text u (xs ++ c :: ys)
      = clean_unicode_text u xs ++ c :: clean_unicode_text u ys := by
  simp only [clean_unicode_text, applyReplacements_eq, List.map_append,
    List.map_cons, List.flatten_append, List.flatten_cons,
    chainRepl_eq_of_not_key c h2, cleanChar_of_inRange u c h1]
  rfl

/-- Witness for C5: the Latin-1 character é (U+00E9) is preserved in place
inside a concrete context. -/
theorem clean_unicode_text_id_char_witness :
    clean_unicode_text u0 (strCodes "ab" ++ 0xe9 :: strCodes "cd")
      = clean_unicode_text u0 (strCodes "ab")
          ++ 0xe9 :: clean_unicode_text u0 (strCodes "cd") :=
  clean_unicode_text_id_char u0 0xe9 (strCodes "ab") (strCodes "cd")
    (by decide) (by decide)

/-! ### Lemmas on the page loop -/

/-- When every page read succeeds, the page loop returns all the texts. -/
theorem readPages_ok (lib : PdfLib) (k s : Nat)
    (h : ∀ j, j < k → isErr (lib.pageText (s + j)) = false) :
    ∃ ts evs, readPages lib s k = (Except.ok ts, evs) := by
  induction k generalizing s with
  | zero => exact ⟨[], [], rfl⟩
  | succ k ih =>
    have h0 := h 0 (by omega)
    rcases hp : lib.pageText s with e | t
    · rw [Nat.add_zero, hp] at h0
      simp [isErr] at h0
    · have h' : ∀ j, j < k → isErr (lib.pageText (s + 1 + j)) = false := by
        intro j hj
        have := h (j + 1) (by omega)
        rwa [show s + (j + 1) = s + 1 + j by omega] at this
      obtain ⟨ts, evs, he⟩ := ih (s + 1) h'
      exact ⟨t :: ts, Ev.pageRead s :: evs, by simp [readPages, hp, he]⟩

/-- When some page read raises, the page loop ends in that exception. -/
theorem readPages_err (lib : PdfLib) (k s : Nat)
    (h : ∃ j, j < k ∧ isErr (lib.pageText (s + j)) = true) :
    ∃ e evs, readPages lib s k = (Except.error e, evs) := by
  induction k generalizing s with
  | zero =>
    obtain ⟨j, hj, _⟩ := h
    omega
  | succ k ih =>
    rcases hp : lib.pageText s with e | t
    · exact ⟨e, [Ev.pageRead s], by simp [readPages, hp]⟩
    · obtain ⟨j, hj, herr⟩ := h
      have hj0 : j ≠ 0 := by
        intro h0
        subst h0
        rw [Nat.add_zero, hp] at herr
        simp [isErr] at herr
      obtain ⟨e, evs, he⟩ := ih (s + 1)
        ⟨j - 1, by omega, by rw [show s + 1 + (j - 1) = s + j by omega]; exact herr⟩
      exact ⟨e, Ev.pageRead s :: evs, by simp [readPages, hp, he]⟩

/-! ### Claims C2, C3, C6, C7, C8, C9, C10 -/

/-- C2 (amended): on every run in which the document opens and all page
reads succeed, each of the three extractors closes the handle before
returning; the original claim that the handle is closed on failure paths as
well is refuted by `handle_left_open_cex`. -/
theorem handle_closed_on_success (u : UnicodeData) (path : List Nat)
    (lib : PdfLib) (now : List Nat)
    (hopen : lib.openResult = Except.ok ())
    (hpages : ∀ j, j < lib.pageCount → isErr (lib.pageText j) = false) :
    Ev.closed ∈ (ExtractPdfText.extract_pdf_text u lib).2 ∧
    Ev.closed ∈ (PdfExtractor.extract_pdf_text path true lib).2 ∧
    Ev.closed ∈ (PymupdfExtractor.extract_text_from_pdf path true lib now).2 := by
  have h0 : ∀ j, j < lib.pageCount → isErr (lib.pageText (0 + j)) = false := by
    intro j hj
    rw [Nat.zero_add]
    exact hpages j hj
  obtain ⟨ts, evs, he⟩ := readPages_ok lib lib.pageCount 0 h0
  refine ⟨?_, ?_, ?_⟩
  · simp [ExtractPdfText.extract_pdf_text, hopen, he]
  · simp [PdfExtractor.extract_pdf_text, hopen, he]
  · simp [PymupdfExtractor.extract_text_from_pdf, hopen, he]

/-- Witness for C2 (amended): the fully successful run on the one-page
"Hello" document closes the handle in all three extractors. -/
theorem handle_closed_on_success_witness :
    Ev.closed ∈ (ExtractPdfText.extract_pdf_text u0 libHello).2 ∧
    Ev.closed ∈ (PdfExtractor.extract_pdf_text (strCodes "a.pdf") true libHello).2 ∧
    Ev.closed ∈ (PymupdfExtractor.extract_text_from_pdf (strCodes "a.pdf") true libHello []).2 :=
  handle_closed_on_success u0 (strCodes "a.pdf") libHello [] rfl
    (fun _ _ => rfl)

/-- Counterexample to C2 as stated: a document that opens but whose page
read raises yields a failure result with the handle never closed — the
`except` branches of all three scripts return without `doc.close()`. -/
theorem handle_left_open_cex :
    isErr libFail.openResult = false ∧
    (PymupdfExtractor.extract_text_from_pdf (strCodes "a.pdf") true libFail []).1.success = false ∧
    Ev.openCalled ∈ (PymupdfExtractor.extract_text_from_pdf (strCodes "a.pdf") true libFail []).2 ∧
    Ev.closed ∉ (PymupdfExtractor.extract_text_from_pdf (strCodes "a.pdf") true libFail []).2 := by
  decide

/-- C3 (amended): on a well-formed single-page PDF whose sole page text is
"Hello", the pymupdf extractor reports `success`, metadata pageCount 1 and
a single page record (pageNumber 1, text "Hello", charCount 5), but its
`totalCharacters` is 20: the length of the stripped assembled text
"=== PAGE 1 ===\nHello", page banner included — not 5. -/
theorem single_page_hello (path : List Nat) (lib : PdfLib) (now : List Nat)
    (h1 : lib.openResult = Except.ok ())
    (h2 : lib.pageCount = 1)
    (h3 : lib.pageText 0 = Except.ok (strCodes "Hello")) :
    (PymupdfExtractor.extract_text_from_pdf path true lib now).1.success = true ∧
    ((PymupdfExtractor.extract_text_from_pdf path true lib now).1.metadata).map
      PymupdfExtractor.PyMeta.pageCount = some 1 ∧
    (PymupdfExtractor.extract_text_from_pdf path true lib now).1.pages
      = some [{ pageNumber := 1, text := strCodes "Hello", charCount := 5 }] ∧
    (PymupdfExtractor.extract_text_from_pdf path true lib now).1.totalCharacters
      = some 20 ∧
    (PymupdfExtractor.extract_text_from_pdf path true lib now).1.text
      = strCodes "=== PAGE 1 ===" ++ 10 :: strCodes "Hello" := by
  have hr : readPages lib 0 1
      = (Except.ok [strCodes "Hello"], [Ev.pageRead 0]) := by
    simp [readPages, h3]
  refine ⟨?_, ?_, ?_, ?_, ?_⟩
  · simp [PymupdfExtractor.extract_text_from_pdf, h1, h2, hr]
  · simp [PymupdfExtractor.extract_text_from_pdf, h1, h2, hr,
      PymupdfExtractor.buildMeta]
  · simp [PymupdfExtractor.extract_text_from_pdf, h1, h2, hr]
    decide
  · simp [PymupdfExtractor.extract_text_from_pdf, h1, h2, hr]
    decide
  · simp [PymupdfExtractor.extract_text_from_pdf, h1, h2, hr]
    decide

/-- Witness for C3 (amended): the amended scenario evaluated at the
concrete one-page "Hello" collaborator. -/
theorem single_page_hello_witness :
    (PymupdfExtractor.extract_text_from_pdf (strCodes "a.pdf") true libHello []).1.success = true ∧
    ((PymupdfExtractor.extract_text_from_pdf (strCodes "a.pdf") true libHello []).1.metadata).map
      PymupdfExtractor.PyMeta.pageCount = some 1 ∧
    (PymupdfExtractor.extract_text_from_pdf (strCodes "a.pdf") true libHello []).1.pages
      = some [{ pageNumber := 1, text := strCodes "Hello", charCount := 5 }] ∧
    (PymupdfExtractor.extract_text_from_pdf (strCodes "a.pdf") true libHello []).1.totalCharacters
      = some 20 ∧
    (PymupdfExtractor.extract_text_from_pdf (strCodes "a.pdf") true libHello []).1.text
      = strCodes "=== PAGE 1 ===" ++ 10 :: strCodes "Hello" :=
  single_page_hello (strCodes "a.pdf") libHello [] rfl rfl rfl

/-- Counterexample to C3 as stated: on the concrete one-page "Hello"
document the pymupdf extractor's `totalCharacters` is not 5 (it is 20,
because the assembled text keeps the "=== PAGE 1 ===" banner), although the
run succeeds with the page record the claim describes. -/
theorem single_page_hello_cex :
    (PymupdfExtractor.extract_text_from_pdf (strCodes "a.pdf") true libHello []).1.success = true ∧
    (PymupdfExtractor.extract_text_from_pdf (strCodes "a.pdf") true libHello []).1.pages
      = some [{ pageNumber := 1, text := strCodes "Hello", charCount := 5 }] ∧
    (PymupdfExtractor.extract_text_from_pdf (strCodes "a.pdf") true libHello []).1.totalCharacters
      ≠ some 5 := by
  decide

/-- C6 (amended): on a missing path the two backend entry points return the
file-not-found failure (success false, error message carrying the path)
with no collaborator call at all; the plain-text script, however, performs
no existence check: its first collaborator call is always `open`, for every
collaborator behaviour (see `missing_file_cex` for the missing-file
instance). -/
theorem missing_file_skips_collaborator (path : List Nat) (lib : PdfLib)
    (now : List Nat) :
    PymupdfExtractor.extract_text_from_pdf path false lib now
      = (PymupdfExtractor.fnfResult path, []) ∧
    PdfExtractor.extract_pdf_text path false lib
      = (PdfExtractor.fnfResult path, []) ∧
    (PymupdfExtractor.fnfResult path).success = false ∧
    (PymupdfExtractor.fnfResult path).error
      = some (strCodes "File not found: " ++ path) ∧
    (PdfExtractor.fnfResult path).success = false ∧
    (PdfExtractor.fnfResult path).error
      = some (strCodes "File not found: " ++ path) ∧
    (∀ u : UnicodeData,
      ((ExtractPdfText.extract_pdf_text u lib).2).head? = some Ev.openCalled) := by
  refine ⟨rfl, rfl, rfl, rfl, rfl, rfl, ?_⟩
  intro u
  rcases ho : lib.openResult with e | uu
  · simp [ExtractPdfText.extract_pdf_text, ho]
  · rcases hrp : readPages lib 0 lib.pageCount with ⟨r, evs⟩
    cases r with
    | error e => simp [ExtractPdfText.extract_pdf_text, ho, hrp]
    | ok ts => simp [ExtractPdfText.extract_pdf_text, ho, hrp]

/-- Counterexample to C6 as stated: the plain-text script
extract_pdf_text.py has no existence check; on a path the collaborator
cannot open it still calls `open` (refuting "without invoking any operation
of the PDF collaborator") and returns the empty string rather than a
failure record. -/
theorem missing_file_cex :
    Ev.openCalled ∈ (ExtractPdfText.extract_pdf_text u0 libNoFile).2 ∧
    (ExtractPdfText.extract_pdf_text u0 libNoFile).1 = [] := by
  decide

/-- C7 (amended): invoked with any argument count other than one path, the
plain-text script and pdf_extractor.py print a usage failure and exit with
code 1 without attempting extraction; pymupdf_extractor.py does so only
when it receives no argument at all (`len(sys.argv) < 2`) — with extra
arguments it proceeds, extracting the first (see `usage_exit_cex`). -/
theorem usage_exit :
    (∀ (u : UnicodeData) (argv : List (List Nat)) (lib : PdfLib),
      argv.length ≠ 2 → ExtractPdfText.mainEntry u argv lib = (1, false)) ∧
    (∀ (argv : List (List Nat)) (pe : Bool) (lib : PdfLib),
      argv.length ≠ 2 → PdfExtractor.mainEntry argv pe lib = (1, false)) ∧
    (∀ (argv : List (List Nat)) (pe : Bool) (lib : PdfLib) (now : List Nat),
      argv.length < 2 → PymupdfExtractor.mainEntry argv pe lib now = (1, false)) := by
  refine ⟨?_, ?_, ?_⟩
  · intro u argv lib h
    simp [ExtractPdfText.mainEntry, h]
  · intro argv pe lib h
    simp [PdfExtractor.mainEntry, h]
  · intro argv pe lib now h
    simp [PymupdfExtractor.mainEntry, h]

/-- Witness for C7 (amended): concrete wrong-argument invocations of the
three entry points all exit 1 without extracting. -/
theorem usage_exit_witness :
    ExtractPdfText.mainEntry u0 [] libNoFile = (1, false) ∧
    PdfExtractor.mainEntry [strCodes "prog"] true libNoFile = (1, false) ∧
    PymupdfExtractor.mainEntry [] true libNoFile [] = (1, false) :=
  ⟨usage_exit.1 u0 [] libNoFile (by decide),
   usage_exit.2.1 [strCodes "prog"] true libNoFile (by decide),
   usage_exit.2.2 [] true libNoFile [] (by decide)⟩

/-- Counterexample to C7 as stated: pymupdf_extractor.py invoked with two
path arguments (wrong count: three argv entries) does not exit 1 and does
attempt extraction — its guard is `len(sys.argv) < 2`, not `!= 2`. -/
theorem usage_exit_cex :
    ([strCodes "prog", strCodes "a.pdf", strCodes "x"] : List (List Nat)).length ≠ 2 ∧
    PymupdfExtractor.mainEntry [strCodes "prog", strCodes "a.pdf", strCodes "x"]
      false libNoFile [] = (0, true) := by
  decide

/-- C8: whenever the collaborator raises during opening or during a page
read, both JSON-producing extractors return a failure result: success
false, empty text, empty metadata, and (for pymupdf_extractor.py) an empty
pages list and no totalCharacters — no partial extraction results. -/
theorem parse_failure_empty (path : List Nat) (lib : PdfLib) (now : List Nat)
    (h : isErr lib.openResult = true ∨
      ∃ j, j < lib.pageCount ∧ isErr (lib.pageText j) = true) :
    (PymupdfExtractor.extract_text_from_pdf path true lib now).1.success = false ∧
    (PymupdfExtractor.extract_text_from_pdf path true lib now).1.text = [] ∧
    (PymupdfExtractor.extract_text_from_pdf path true lib now).1.metadata = none ∧
    (PymupdfExtractor.extract_text_from_pdf path true lib now).1.pages = some [] ∧
    (PymupdfExtractor.extract_text_from_pdf path true lib now).1.totalCharacters = none ∧
    (PdfExtractor.extract_pdf_text path true lib).1.success = false ∧
    (PdfExtractor.extract_pdf_text path true lib).1.text = [] ∧
    (PdfExtractor.extract_pdf_text path true lib).1.metadata = none ∧
    (PdfExtractor.extract_pdf_text path true lib).1.totalCharacters = none := by
  rcases ho : lib.openResult with e | uu
  · refine ⟨?_, ?_, ?_, ?_, ?_, ?_, ?_, ?_, ?_⟩ <;>
      simp [PymupdfExtractor.extract_text_from_pdf, PdfExtractor.extract_pdf_text,
        ho, PymupdfExtractor.errResult, PdfExtractor.errResult]
  · rcases h with h | h
    · rw [ho] at h
      simp [isErr] at h
    · have h' : ∃ j, j < lib.pageCount ∧ isErr (lib.pageText (0 + j)) = true := by
        obtain ⟨j, hj, he⟩ := h
        exact ⟨j, hj, by rwa [Nat.zero_add]⟩
      obtain ⟨e, evs, he⟩ := readPages_err lib lib.pageCount 0 h'
      refine ⟨?_, ?_, ?_, ?_, ?_, ?_, ?_, ?_, ?_⟩ <;>
        simp [PymupdfExtractor.extract_text_from_pdf, PdfExtractor.extract_pdf_text,
          ho, he, PymupdfExtractor.errResult, PdfExtractor.errResult]

/-- Witness for C8: the failure shape evaluated at the concrete
collaborator whose only page read raises. -/
theorem parse_failure_empty_witness :
    (PymupdfExtractor.extract_text_from_pdf (strCodes "a.pdf") true libFail []).1.success = false ∧
    (PymupdfExtractor.extract_text_from_pdf (strCodes "a.pdf") true libFail []).1.text = [] ∧
    (PymupdfExtractor.extract_text_from_pdf (strCodes "a.pdf") true libFail []).1.metadata = none ∧
    (PymupdfExtractor.extract_text_from_pdf (strCodes "a.pdf") true libFail []).1.pages = some [] ∧
    (PymupdfExtractor.extract_text_from_pdf (strCodes "a.pdf") true libFail []).1.totalCharacters = none ∧
    (PdfExtractor.extract_pdf_text (strCodes "a.pdf") true libFail).1.success = false ∧
    (PdfExtractor.extract_pdf_text (strCodes "a.pdf") true libFail).1.text = [] ∧
    (PdfExtractor.extract_pdf_text (strCodes "a.pdf") true libFail).1.metadata = none ∧
    (PdfExtractor.extract_pdf_text (strCodes "a.pdf") true libFail).1.totalCharacters = none :=
  parse_failure_empty (strCodes "a.pdf") libFail []
    (Or.inr ⟨0, by decide, by decide⟩)

/-- C9: in every success result of the two JSON-producing extractors, the
totalCharacters field equals the length of the text field. -/
theorem success_total_characters (path : List Nat) (pe : Bool) (lib : PdfLib)
    (now : List Nat) :
    ((PymupdfExtractor.extract_text_from_pdf path pe lib now).1.success = true →
      (PymupdfExtractor.extract_text_from_pdf path pe lib now).1.totalCharacters
        = some (PymupdfExtractor.extract_text_from_pdf path pe lib now).1.text.length) ∧
    ((PdfExtractor.extract_pdf_text path pe lib).1.success = true →
      (PdfExtractor.extract_pdf_text path pe lib).1.totalCharacters
        = some (PdfExtractor.extract_pdf_text path pe lib).1.text.length) := by
  cases pe
  · constructor <;> intro h <;>
      simp [PymupdfExtractor.extract_text_from_pdf, PdfExtractor.extract_pdf_text,
        PymupdfExtractor.fnfResult, PdfExtractor.fnfResult] at h
  · rcases ho : lib.openResult with e | uu
    · constructor <;> intro h <;>
        simp [PymupdfExtractor.extract_text_from_pdf, PdfExtractor.extract_pdf_text,
          ho, PymupdfExtractor.errResult, PdfExtractor.errResult] at h
    · rcases hrp : readPages lib 0 lib.pageCount with ⟨r, evs⟩
      cases r with
      | error e =>
        constructor <;> intro h <;>
          simp [PymupdfExtractor.extract_text_from_pdf, PdfExtractor.extract_pdf_text,
            ho, hrp, PymupdfExtractor.errResult, PdfExtractor.errResult] at h
      | ok ts =>
        constructor <;> intro _ <;>
          simp [PymupdfExtractor.extract_text_from_pdf, PdfExtractor.extract_pdf_text,
            ho, hrp]

/-- Witness for C9: the invariant evaluated on the concrete successful
one-page "Hello" run of pymupdf_extractor.py. -/
theorem success_total_characters_witness :
    (PymupdfExtractor.extract_text_from_pdf (strCodes "a.pdf") true libHello []).1.totalCharacters
      = some (PymupdfExtractor.extract_text_from_pdf (strCodes "a.pdf") true libHello []).1.text.length :=
  (success_total_characters (strCodes "a.pdf") true libHello []).1 (by decide)

/-- C10: in the plain-text extractor, the assembled `text_parts` sequence
is exactly one entry — a page marker followed by the cleaned text — for
each page whose raw text does not strip to empty, in order: a page that is
empty or whitespace-only contributes nothing (no marker line for its page
number is emitted, so marker numbers need not be consecutive). -/
theorem text_parts_skip_blank_pages (u : UnicodeData) (n : Nat)
    (ts : List (List Nat)) :
    ExtractPdfText.textPartsAux u n ts
      = ((List.enumFrom n ts).filter (fun p => !(pyStrip p.2).isEmpty)).map
          (fun p => ExtractPdfText.pageMarker p.1 (clean_unicode_text u p.2)) := by
  induction ts generalizing n with
  | nil => rfl
  | cons t ts ih =>
    by_cases hst : (pyStrip t).isEmpty
    · simp [ExtractPdfText.textPartsAux, hst, ih]
    · simp [ExtractPdfText.textPartsAux, hst, ih]
